import Mathlib

/-!
Verification development for the `webreader-locally` repository
(`web_reader_local.py`): a web page fetcher (`Website`) and a local
model summarizer (`LocalWebReader`).

The Python code is shallowly embedded:
* Python `str` values are Lean `String`s; the Python string operations
  used by the code (`strip`, `split('\n')`, `'\n'.join`, `len`) are
  defined below on the underlying character lists so that they compute.
* The HTML tree produced by BeautifulSoup is modelled by the mutual
  inductives `HNode`/`HForest` (attributes are irrelevant to every
  operation the code performs and are abstracted away).
* The HTTP layer (`requests.get` + `raise_for_status`) and the model
  client (`ollama.chat`) are external collaborators; they are modelled
  by the data types `FetchOutcome` and `ChatOutcome`, and `summarize`
  takes the collaborators as explicit function arguments.
* Python exceptions are modelled with `Except`, where the carried
  `Website` value is the object's partially-updated state at the point
  the exception was raised (mirroring attribute mutation in `__init__`).
-/

namespace WebReader

/-- Whitespace characters stripped by Python `str.strip()` (ASCII part). -/
def isSpace (c : Char) : Bool :=
  c = ' ' || c = '\t' || c = '\n' || c = '\r' || c = '\x0b' || c = '\x0c'

/-- Python `str.strip()` on a character list. -/
def pyStrip (s : List Char) : List Char :=
  ((s.dropWhile isSpace).reverse.dropWhile isSpace).reverse

/-- Python `str.strip()`. -/
def strip (s : String) : String := String.mk (pyStrip s.data)

/-- Python `len` on a string (number of code points). -/
def pyLen (s : String) : Nat := s.data.length

/-- Python `str.split('\n')` on a character list (keeps empty pieces). -/
def pySplitNl : List Char → List (List Char)
  | [] => [[]]
  | c :: cs =>
    if c = '\n' then [] :: pySplitNl cs
    else
      match pySplitNl cs with
      | [] => [[c]]
      | l :: ls => (c :: l) :: ls

/-- Python `str.split('\n')`. -/
def splitLines (s : String) : List String := (pySplitNl s.data).map String.mk

/-- Python `'\n'.join` on character lists. -/
def joinNl : List (List Char) → List Char
  | [] => []
  | [l] => l
  | l :: ls => l ++ '\n' :: joinNl ls

/-- Python `'\n'.join`. -/
def joinLines (ls : List String) : String := String.mk (joinNl (ls.map String.data))

mutual

/-- A node of the parsed HTML tree: a text node or an element.
Attributes play no role in any operation of the program and are
abstracted away. -/
inductive HNode where
  | text (s : String)
  | elem (tag : String) (children : HForest)

/-- A sequence of sibling HTML nodes (the children of an element, or a
whole parsed document). -/
inductive HForest where
  | nil
  | cons (n : HNode) (ns : HForest)

end

/-- Build an `HForest` from a list of nodes (literal convenience). -/
def listToForest : List HNode → HForest
  | [] => .nil
  | n :: ns => .cons n (listToForest ns)

/-- Element node with children given as a list. -/
def helem (tag : String) (cs : List HNode) : HNode := .elem tag (listToForest cs)

/-- Text node. -/
def htext (s : String) : HNode := .text s

mutual

/-- The text strings of a node in document order
(BeautifulSoup `strings` of a tag). -/
def stringsOf : HNode → List String
  | .text s => [s]
  | .elem _ cs => stringsOfF cs

/-- The text strings of a forest in document order. -/
def stringsOfF : HForest → List String
  | .nil => []
  | .cons n ns => stringsOf n ++ stringsOfF ns

end

/-- BeautifulSoup `get_text(separator="\n", strip=True)` over a forest:
every descendant string, stripped, empty pieces dropped, joined with
newlines. -/
def get_text (ns : HForest) : String :=
  joinLines (((stringsOfF ns).map strip).filter (fun l => pyLen l ≠ 0))

/-- The tag names removed from the body before text extraction
(`soup.body(["script", "style", "img", "input", "nav", "header", "footer"])`
followed by `decompose()`). -/
def irrelevantTags : List String :=
  ["script", "style", "img", "input", "nav", "header", "footer"]

/-- Remove every element whose tag is in `irrelevantTags`, together with
its whole subtree (the `decompose()` loop). -/
def removeIrrelevantF : HForest → HForest
  | .nil => .nil
  | .cons (.text s) ns => .cons (.text s) (removeIrrelevantF ns)
  | .cons (.elem t cs) ns =>
    if irrelevantTags.contains t then removeIrrelevantF ns
    else .cons (.elem t (removeIrrelevantF cs)) (removeIrrelevantF ns)

/-- First element with the given tag, depth-first (BeautifulSoup
`soup.find(tag)`, which underlies `soup.title` and `soup.body`);
returns its children. -/
def findTag (tag : String) : HForest → Option HForest
  | .nil => none
  | .cons (.text _) ns => findTag tag ns
  | .cons (.elem t cs) ns =>
    if t = tag then some cs
    else
      match findTag tag cs with
      | some r => some r
      | none => findTag tag ns

mutual

/-- BeautifulSoup `.string` of a node: the unique string descendant
reached through single-child elements, if any. -/
def nodeString : HNode → Option String
  | .text s => some s
  | .elem _ cs => singleChildString cs

/-- BeautifulSoup `.string` through a children forest: defined only
when there is exactly one child. -/
def singleChildString : HForest → Option String
  | .cons c .nil => nodeString c
  | _ => none

end

mutual

/-- Serialisation of a node back to markup (`str(soup)`, with
attributes abstracted away). -/
def render : HNode → String
  | .text s => s
  | .elem t cs => "<" ++ t ++ ">" ++ renderF cs ++ "</" ++ t ++ ">"

/-- Serialisation of a forest back to markup. -/
def renderF : HForest → String
  | .nil => ""
  | .cons n ns => render n ++ renderF ns

end

/-- The scraped-website record (`class Website`): the spec calls this a
`Page`. -/
structure Website where
  url : String
  title : String
  text : String
  raw_content : String
  status_code : Option Nat
deriving Repr, DecidableEq

/-- Behaviour of the HTTP collaborator (`requests.get`) on one URL:
either the call raises a transport exception with the given message, or
it yields a response with a status code, a reason phrase, and a parsed
document. -/
inductive FetchOutcome where
  | transportError (msg : String)
  | httpResponse (status : Nat) (reason : String) (doc : HForest)

/-- Message of the `requests.HTTPError` raised by
`response.raise_for_status()` for a status in the 4xx or 5xx range. -/
def httpErrorMsg (status : Nat) (reason url : String) : String :=
  if status < 500 then
    toString status ++ " Client Error: " ++ reason ++ " for url: " ++ url
  else
    toString status ++ " Server Error: " ++ reason ++ " for url: " ++ url

/-- `raise_for_status()` raises exactly for 4xx and 5xx statuses. -/
def raiseForStatusFails (status : Nat) : Bool := 400 ≤ status

/-- Title step of `_scrape_website`:
`soup.title.string.strip() if soup.title else "No title found"`.
When the title tag exists but its `.string` is `None`, the attribute
access `.strip()` raises an `AttributeError`. -/
def extractTitle (doc : HForest) : Except String String :=
  match findTag "title" doc with
  | none => .ok "No title found"
  | some cs =>
    match singleChildString cs with
    | some s => .ok (strip s)
    | none => .error "\x27NoneType\x27 object has no attribute \x27strip\x27"

/-- `_clean_text`: split into lines, keep the stripped lines longer
than 10 characters, rejoin with newlines. -/
def clean_text (text : String) : String :=
  let lines := splitLines text
  let cleaned_lines := lines.foldl
    (fun acc line =>
      let l := strip line
      if 10 < pyLen l then acc ++ [l] else acc)
    []
  joinLines cleaned_lines

/-- Text step of `_scrape_website`: with a `<body>`, decompose the
irrelevant elements, extract its text and clean it; without a `<body>`,
extract the text of the whole document (no decomposition, no cleaning). -/
def extractText (doc : HForest) : String :=
  match findTag "body" doc with
  | some cs => clean_text (get_text (removeIrrelevantF cs))
  | none => get_text doc

/-- The attribute defaults set at the top of `Website.__init__`. -/
def initialPage (url : String) : Website :=
  { url := url, title := "", text := "", raw_content := "", status_code := none }

/-- `_scrape_website`, step by step over the object state: on an
exception the error carries the message and the partially-updated
state at the raise point. -/
def scrape_website (p : Website) (f : FetchOutcome) : Except (String × Website) Website :=
  match f with
  | .transportError msg => .error (msg, p)
  | .httpResponse status reason doc =>
    if raiseForStatusFails status then .error (httpErrorMsg status reason p.url, p)
    else
      let p1 := { p with status_code := some status }
      let p2 := { p1 with raw_content := renderF doc }
      match extractTitle doc with
      | .error msg => .error (msg, p2)
      | .ok t => .ok { p2 with title := t, text := extractText doc }

/-- `_handle_scraping_error`. -/
def handle_scraping_error (p : Website) (msg : String) : Website :=
  { p with
    title := "Error loading website"
    text := "Failed to load website content: " ++ msg
    status_code := none }

/-- `Website.__init__`: run the scrape, catching any exception with
`_handle_scraping_error`. -/
def websiteInit (url : String) (f : FetchOutcome) : Website :=
  match scrape_website (initialPage url) f with
  | .ok p => p
  | .error (msg, p) => handle_scraping_error p msg

/-- Reader configuration (`class LocalWebReader`). -/
structure LocalWebReader where
  model : String
  system_prompt : String
deriving Repr, DecidableEq

/-- The default system prompt set in `LocalWebReader.__init__`. -/
def defaultSystemPrompt : String :=
  "You are an assistant that analyzes the contents of a website \nand provides a short summary, ignoring text that might be navigation related. \nRespond in markdown."

/-- `LocalWebReader.__init__` (the Ollama availability check only logs
and prints; it does not affect the state). -/
def mkReader (model : String) : LocalWebReader :=
  { model := model, system_prompt := defaultSystemPrompt }

/-- `set_system_prompt`. -/
def set_system_prompt (r : LocalWebReader) (p : String) : LocalWebReader :=
  { r with system_prompt := p }

/-- One chat message, `{"role": ..., "content": ...}`. -/
structure ChatMessage where
  role : String
  content : String
deriving Repr, DecidableEq

/-- `user_prompt_for`. -/
def user_prompt_for (website : Website) : String :=
  "You are looking at a website titled \x27" ++ website.title ++ "\x27\n" ++
  "The contents of this website is as follows; " ++
  "please provide a short summary of this website in markdown. " ++
  "If it includes news or announcements, then summarize these too.\n\n" ++
  website.text

/-- `messages_for`. -/
def messages_for (r : LocalWebReader) (website : Website) : List ChatMessage :=
  [{ role := "system", content := r.system_prompt },
   { role := "user", content := user_prompt_for website }]

/-- Behaviour of one `ollama.chat` call: either it returns a message
content, or it (or the subsequent response-field access) raises an
exception with the given message. -/
inductive ChatOutcome where
  | ok (content : String)
  | error (msg : String)

/-- The model-client collaborator: `ollama.chat` as a function of the
model name and the message list. -/
def ChatClient : Type := String → List ChatMessage → ChatOutcome

/-- The HTTP collaborator: the behaviour of `requests.get` per URL. -/
def Fetcher : Type := String → FetchOutcome

/-- The tail of `summarize`: return the model content, or the
`except`-clause string when the model invocation raised. -/
def chatResult : ChatOutcome → String
  | .ok content => content
  | .error msg => "Error generating summary: " ++ msg

/-- The fixed failure string returned by `summarize` when
`website.status_code != 200`. The literal in the source file is the
two-character sequence U+00E2 U+0152 ("âŒ"), a cp1252-mojibake
rendering of an intended '❌' that is baked into the committed file,
so the program emits exactly these characters. -/
def failAccessMsg (url : String) : String :=
  "âŒ Failed to access website: " ++ url

/-- `summarize`. -/
def summarize (r : LocalWebReader) (chat : ChatClient) (fetch : Fetcher)
    (url : String) : String :=
  let website := websiteInit url (fetch url)
  if website.status_code ≠ some 200 then failAccessMsg url
  else chatResult (chat r.model (messages_for r website))

/-- `results[url] = value` on a Python dict modelled as an association
list in insertion order: an existing key is updated in place, a new key
is appended. -/
def dictInsert : List (String × String) → String → String → List (String × String)
  | [], k, v => [(k, v)]
  | e :: d, k, v => if e.1 = k then (k, v) :: d else e :: dictInsert d k v

/-- `dict[k]` lookup. -/
def dictLookup : List (String × String) → String → Option String
  | [], _ => none
  | e :: d, k => if e.1 = k then some e.2 else dictLookup d k

/-- `batch_summarize`. -/
def batch_summarize (r : LocalWebReader) (chat : ChatClient) (fetch : Fetcher)
    (urls : List String) : List (String × String) :=
  urls.foldl (fun results url => dictInsert results url (summarize r chat fetch url)) []

/-- Two consecutive `summarize` calls on the same reader with no
intervening state change. -/
def summarizeTwice (r : LocalWebReader) (chat : ChatClient) (fetch : Fetcher)
    (url : String) : String × String :=
  (summarize r chat fetch url, summarize r chat fetch url)

/-- Modelled from the spec (section 4.1), for comparison with the code:
the no-`<body>` branch as the spec describes it, with "the same element
removal ... and the same subsequent text-cleaning" as the body branch. -/
def specNoBodyText (doc : HForest) : String :=
  clean_text (get_text (removeIrrelevantF doc))

/-- The fetch outcomes on which the scrape raises before any state is
recorded: a transport error, or a status that makes
`raise_for_status()` raise. -/
def fetchFailed : FetchOutcome → Bool
  | .transportError _ => true
  | .httpResponse status _ _ => raiseForStatusFails status

/-- The message of the exception raised for a failing fetch outcome. -/
def fetchErrMsg (url : String) : FetchOutcome → String
  | .transportError msg => msg
  | .httpResponse status reason _ => httpErrorMsg status reason url

/-- The mocked document of spec section 8: title `"T"` and body
`<nav>Home</nav><p>Short</p><p>This is a sufficiently long paragraph of
content.</p>`. -/
def sectionEightDoc : HForest :=
  listToForest
    [helem "title" [htext "T"],
     helem "body"
       [helem "nav" [htext "Home"],
        helem "p" [htext "Short"],
        helem "p" [htext "This is a sufficiently long paragraph of content."]]]

/-! ## Helper lemmas -/

/-- Looking a key up after a dict insertion. -/
theorem dictLookup_dictInsert (d : List (String × String)) (k v k2 : String) :
    dictLookup (dictInsert d k v) k2 = if k2 = k then some v else dictLookup d k2 := by
  induction d with
  | nil =>
    by_cases h : k2 = k
    · subst h; simp [dictInsert, dictLookup]
    · simp [dictInsert, dictLookup, h, Ne.symm h]
  | cons e d ih =>
    by_cases he : e.1 = k <;> by_cases h2 : k2 = k <;> by_cases h3 : e.1 = k2 <;>
      simp_all [dictInsert, dictLookup]

/-- Looking up a key in the fold that implements `batch_summarize`. -/
theorem batch_lookup_aux (r : LocalWebReader) (chat : ChatClient) (fetch : Fetcher)
    (urls : List String) (acc : List (String × String)) (k : String) :
    dictLookup (urls.foldl (fun a url => dictInsert a url (summarize r chat fetch url)) acc) k =
      if k ∈ urls then some (summarize r chat fetch k) else dictLookup acc k := by
  induction urls generalizing acc with
  | nil => simp
  | cons u us ih =>
    simp only [List.foldl_cons, ih, dictLookup_dictInsert, List.mem_cons]
    by_cases hk : k ∈ us
    · simp [hk]
    · by_cases hu : k = u
      · subst hu; simp [hk]
      · simp [hk, hu]

/-- The `_clean_text` accumulator loop as a map-filter. -/
theorem clean_text_foldl (ls acc : List String) :
    ls.foldl
        (fun a line =>
          let l := strip line
          if 10 < pyLen l then a ++ [l] else a)
        acc
      = acc ++ (ls.map strip).filter (fun l => 10 < pyLen l) := by
  induction ls generalizing acc with
  | nil => simp
  | cons x xs ih =>
    simp only [List.foldl_cons, List.map_cons, List.filter_cons]
    by_cases hx : 10 < pyLen (strip x)
    · simp [hx, ih]
    · simp [hx, ih]

/-- Unfolding a successful scrape of an HTTP response. -/
theorem scrape_ok_fields (url : String) (status : Nat) (reason : String) (doc : HForest)
    (q : Website)
    (h : scrape_website (initialPage url) (FetchOutcome.httpResponse status reason doc) =
      Except.ok q) :
    raiseForStatusFails status = false ∧ ∃ t, extractTitle doc = Except.ok t ∧
      q = { url := url, title := t, text := extractText doc,
            raw_content := renderF doc, status_code := some status } := by
  by_cases hs : raiseForStatusFails status
  · simp [scrape_website, hs] at h
  · cases hT : extractTitle doc with
    | error msg => simp [scrape_website, hs, hT] at h
    | ok t =>
      simp [scrape_website, hs, hT, initialPage] at h
      exact ⟨by simpa using hs, t, rfl, h.symm⟩

/-- A successful scrape records the HTTP status. -/
theorem scrape_ok_status (url : String) (f : FetchOutcome) (q : Website)
    (h : scrape_website (initialPage url) f = Except.ok q) :
    ∃ status, q.status_code = some status := by
  cases f with
  | transportError msg => cases h
  | httpResponse status reason doc =>
    obtain ⟨_, t, _, rfl⟩ := scrape_ok_fields url status reason doc q h
    exact ⟨status, rfl⟩

/-- What a successful title extraction can return. -/
theorem extractTitle_ok (doc : HForest) (t : String)
    (h : extractTitle doc = Except.ok t) :
    match findTag "title" doc with
    | none => t = "No title found"
    | some cs => ∃ s, singleChildString cs = some s ∧ t = strip s := by
  cases hft : findTag "title" doc with
  | none =>
    simp only [extractTitle, hft] at h
    injection h with h
    simp [hft, h]
  | some cs =>
    cases hcs : singleChildString cs with
    | none => simp [extractTitle, hft, hcs] at h
    | some s =>
      simp only [extractTitle, hft, hcs] at h
      injection h with h
      simp only [hft]
      exact ⟨s, hcs, h.symm⟩

/-! ## Claims -/

/-- C2: on a transport error or a non-success (4xx/5xx) HTTP status,
the `Website` constructor does not raise and yields a page whose title
is `"Error loading website"`, whose text embeds the underlying error
message, and whose `status_code` is unset. -/
theorem fetch_failure_page (url : String) (f : FetchOutcome)
    (h : fetchFailed f = true) :
    (websiteInit url f).title = "Error loading website" ∧
    (websiteInit url f).text = "Failed to load website content: " ++ fetchErrMsg url f ∧
    (websiteInit url f).status_code = none := by
  cases f with
  | transportError msg =>
    simp [websiteInit, scrape_website, handle_scraping_error, fetchErrMsg]
  | httpResponse status reason doc =>
    simp only [fetchFailed] at h
    simp [websiteInit, scrape_website, h, handle_scraping_error, fetchErrMsg, initialPage]

/-- Witness for C2 at a concrete connection error. -/
theorem fetch_failure_page_witness :
    (websiteInit "http://x" (FetchOutcome.transportError "connection refused")).title =
      "Error loading website" ∧
    (websiteInit "http://x" (FetchOutcome.transportError "connection refused")).text =
      "Failed to load website content: " ++
        fetchErrMsg "http://x" (FetchOutcome.transportError "connection refused") ∧
    (websiteInit "http://x" (FetchOutcome.transportError "connection refused")).status_code =
      none :=
  fetch_failure_page "http://x" (FetchOutcome.transportError "connection refused") rfl

/-- C3 counterexample: the failure string's first character in the
source literal is the mojibake "âŒ" (U+00E2 U+0152), not the '❌'
(U+274C) the claim pins: at a mocked 404 the program returns the
former, which differs from the claimed string. -/
theorem summarize_failure_string_counterexample :
    summarize (mkReader "llama3.2") (fun _ _ => ChatOutcome.ok "a summary")
        (fun _ => FetchOutcome.httpResponse 404 "Not Found" HForest.nil) "http://y" =
      "âŒ Failed to access website: " ++ "http://y" ∧
    "âŒ Failed to access website: " ++ "http://y" ≠
      "❌ Failed to access website: " ++ "http://y" := by
  exact ⟨by decide, by decide⟩

/-- C3 (amended): whenever the fetched page's `status_code` is not
`200`, `summarize` returns the fixed failure string naming the URL —
whose prefix is the source's literal "âŒ Failed to access website:"
(U+00E2 U+0152, the file's mojibake rendering of '❌') — and its
result does not depend on the model client (no model call is made). -/
theorem summarize_non_success_status (r : LocalWebReader) (chat chat2 : ChatClient)
    (fetch : Fetcher) (url : String)
    (h : (websiteInit url (fetch url)).status_code ≠ some 200) :
    summarize r chat fetch url = "âŒ Failed to access website: " ++ url ∧
    summarize r chat fetch url = summarize r chat2 fetch url := by
  have h1 : summarize r chat fetch url = failAccessMsg url := by
    simp [summarize, h]
  have h2 : summarize r chat2 fetch url = failAccessMsg url := by
    simp [summarize, h]
  exact ⟨h1, by rw [h1, h2]⟩

/-- Witness for C3 at a mocked 404 response. -/
theorem summarize_non_success_status_witness :
    summarize (mkReader "llama3.2") (fun _ _ => ChatOutcome.ok "a summary")
        (fun _ => FetchOutcome.httpResponse 404 "Not Found" HForest.nil) "http://x" =
      "âŒ Failed to access website: " ++ "http://x" :=
  (summarize_non_success_status (mkReader "llama3.2") (fun _ _ => ChatOutcome.ok "a summary")
      (fun _ _ => ChatOutcome.ok "another summary")
      (fun _ => FetchOutcome.httpResponse 404 "Not Found" HForest.nil) "http://x"
      (by decide)).1

/-- C4: `_clean_text` splits at newlines, keeps exactly the lines whose
stripped length is strictly greater than 10 (stripped), and rejoins
them with newlines; in particular `"Short"` is dropped and the long
paragraph of spec section 8 is kept. -/
theorem clean_text_spec (s : String) :
    clean_text s =
      joinLines (((splitLines s).map strip).filter (fun l => 10 < pyLen l)) ∧
    clean_text "Short\nThis is a sufficiently long paragraph of content." =
      "This is a sufficiently long paragraph of content." := by
  constructor
  · simp only [clean_text]
    rw [clean_text_foldl]
    simp
  · decide

/-- C9: `summarize` is a deterministic function of the reader
configuration and the collaborators' behaviour: two consecutive calls
with no state change agree, and the result depends on the fetcher only
through its answer for the requested URL. -/
theorem summarize_deterministic (r : LocalWebReader) (chat : ChatClient)
    (fetch fetch2 : Fetcher) (url : String) (h : fetch url = fetch2 url) :
    (summarizeTwice r chat fetch url).1 = (summarizeTwice r chat fetch url).2 ∧
    summarize r chat fetch url = summarize r chat fetch2 url := by
  refine ⟨rfl, ?_⟩
  simp only [summarize, h]

/-- Witness for C9: two fetchers agreeing on the requested URL but not
elsewhere. -/
theorem summarize_deterministic_witness :
    (summarizeTwice (mkReader "llama3.2") (fun _ _ => ChatOutcome.ok "S")
        (fun _ => FetchOutcome.transportError "timeout") "u").1 =
      (summarizeTwice (mkReader "llama3.2") (fun _ _ => ChatOutcome.ok "S")
        (fun _ => FetchOutcome.transportError "timeout") "u").2 ∧
    summarize (mkReader "llama3.2") (fun _ _ => ChatOutcome.ok "S")
        (fun _ => FetchOutcome.transportError "timeout") "u" =
      summarize (mkReader "llama3.2") (fun _ _ => ChatOutcome.ok "S")
        (fun v => if v = "u" then FetchOutcome.transportError "timeout"
                  else FetchOutcome.httpResponse 200 "OK" HForest.nil) "u" :=
  summarize_deterministic (mkReader "llama3.2") (fun _ _ => ChatOutcome.ok "S")
    (fun _ => FetchOutcome.transportError "timeout")
    (fun v => if v = "u" then FetchOutcome.transportError "timeout"
              else FetchOutcome.httpResponse 200 "OK" HForest.nil) "u" rfl

/-- C1 counterexample: when the fetch itself raises (here a transport
error "boom"), the exception is absorbed inside the `Website`
constructor, so `summarize` returns the fixed access-failure string and
not `"Error generating summary: boom"`, contradicting the claim that
every exception during fetch yields the latter form. -/
theorem summarize_fetch_error_counterexample :
    summarize (mkReader "llama3.2") (fun _ _ => ChatOutcome.ok "a summary")
        (fun _ => FetchOutcome.transportError "boom") "http://x" =
      "âŒ Failed to access website: http://x" ∧
    "âŒ Failed to access website: http://x" ≠ "Error generating summary: boom" := by
  exact ⟨by decide, by decide⟩

/-- C1 (amended): `summarize` is total and returns a string for every
collaborator behaviour; an exception raised during fetch is handled
inside the `Website` constructor and `summarize` returns the fixed
`"âŒ Failed to access website: <url>"` string (the source's literal,
a mojibake rendering of '❌'); whenever an exception occurs during
model invocation (the page having been fetched with status 200), the
returned string is exactly `"Error generating summary: "` followed by
the exception's message. -/
theorem summarize_error_handling (r : LocalWebReader) (chat : ChatClient)
    (fetch : Fetcher) (url : String) :
    (∀ msg, fetch url = FetchOutcome.transportError msg →
      summarize r chat fetch url = failAccessMsg url) ∧
    (∀ msg, (websiteInit url (fetch url)).status_code = some 200 →
      chat r.model (messages_for r (websiteInit url (fetch url))) = ChatOutcome.error msg →
      summarize r chat fetch url = "Error generating summary: " ++ msg) := by
  constructor
  · intro msg hf
    simp [summarize, hf, websiteInit, scrape_website, handle_scraping_error]
  · intro msg h200 hchat
    simp [summarize, h200, hchat, chatResult]

/-- Witness for C1: one fetch-exception run and one model-exception
run. -/
theorem summarize_error_handling_witness :
    summarize (mkReader "llama3.2") (fun _ _ => ChatOutcome.ok "a summary")
        (fun _ => FetchOutcome.transportError "boom") "http://x" =
      failAccessMsg "http://x" ∧
    summarize (mkReader "llama3.2") (fun _ _ => ChatOutcome.error "model down")
        (fun _ => FetchOutcome.httpResponse 200 "OK" HForest.nil) "http://x" =
      "Error generating summary: " ++ "model down" :=
  ⟨(summarize_error_handling (mkReader "llama3.2") (fun _ _ => ChatOutcome.ok "a summary")
      (fun _ => FetchOutcome.transportError "boom") "http://x").1 "boom" rfl,
   (summarize_error_handling (mkReader "llama3.2") (fun _ _ => ChatOutcome.error "model down")
      (fun _ => FetchOutcome.httpResponse 200 "OK" HForest.nil) "http://x").2 "model down"
      (by decide) rfl⟩

/-- C5 counterexample: on a document with no `<body>`, the code
extracts the text of the whole document without removing the irrelevant
elements and without the cleaning pass: a `<script>` text and a short
line both survive, whereas the spec-described treatment (same removal
and cleaning as the body branch) would produce the empty string. -/
theorem no_body_extraction_counterexample :
    (websiteInit "u" (FetchOutcome.httpResponse 200 "OK"
        (listToForest [helem "script" [htext "var navigation = load();"], htext "hi"]))).text =
      "var navigation = load();\nhi" ∧
    specNoBodyText
        (listToForest [helem "script" [htext "var navigation = load();"], htext "hi"]) =
      "" ∧
    "var navigation = load();\nhi" ≠ "" := by
  exact ⟨by decide, by decide, by decide⟩

/-- C5 (amended): on a successful scrape, if a `<body>` exists the text
is the cleaned extraction of the body subtree with the irrelevant
elements removed; if no `<body>` exists the text is the plain
extraction of the whole document, with no element removal and no
cleaning pass. -/
theorem extraction_branches (url reason : String) (status : Nat) (doc : HForest)
    (hs : raiseForStatusFails status = false) (t : String)
    (ht : extractTitle doc = Except.ok t) :
    (websiteInit url (FetchOutcome.httpResponse status reason doc)).text =
      match findTag "body" doc with
      | some cs => clean_text (get_text (removeIrrelevantF cs))
      | none => get_text doc := by
  simp [websiteInit, scrape_website, hs, ht, extractText]

/-- Witness for C5 at the mocked page of spec section 8. -/
theorem extraction_branches_witness :
    raiseForStatusFails 200 = false ∧
    extractTitle sectionEightDoc = Except.ok "T" ∧
    (websiteInit "u" (FetchOutcome.httpResponse 200 "OK" sectionEightDoc)).text =
      match findTag "body" sectionEightDoc with
      | some cs => clean_text (get_text (removeIrrelevantF cs))
      | none => get_text sectionEightDoc :=
  ⟨rfl, rfl, extraction_branches "u" "OK" 200 sectionEightDoc rfl "T" rfl⟩

/-- C6: `batch_summarize` maps each URL of the input, in order, to its
`summarize` result, the last occurrence winning; looked up at any URL
it gives `summarize` of that URL exactly when the URL occurs in the
input, and on `["a", "b", "a"]` it yields exactly two keys with the
value at `"a"` equal to a direct `summarize "a"` call. -/
theorem batch_summarize_spec (r : LocalWebReader) (chat : ChatClient) (fetch : Fetcher)
    (urls : List String) (url : String) :
    dictLookup (batch_summarize r chat fetch urls) url =
      (if url ∈ urls then some (summarize r chat fetch url) else none) ∧
    (batch_summarize r chat fetch ["a", "b", "a"]).length = 2 ∧
    dictLookup (batch_summarize r chat fetch ["a", "b", "a"]) "a" =
      some (summarize r chat fetch "a") := by
  refine ⟨?_, ?_, ?_⟩
  · simpa using batch_lookup_aux r chat fetch urls [] url
  · simp [batch_summarize, dictInsert]
  · simp [batch_summarize, dictInsert, dictLookup]

/-- C7: after `set_system_prompt p`, a `summarize` call on a page
fetched with status 200 invokes the model client on exactly the
`messages_for` list, whose system message content is exactly `p`;
`set_system_prompt` accepts any string. -/
theorem set_system_prompt_spec (r : LocalWebReader) (p : String) (chat : ChatClient)
    (fetch : Fetcher) (url : String)
    (h : (websiteInit url (fetch url)).status_code = some 200) :
    (messages_for (set_system_prompt r p) (websiteInit url (fetch url))).head? =
      some { role := "system", content := p } ∧
    summarize (set_system_prompt r p) chat fetch url =
      chatResult (chat (set_system_prompt r p).model
        (messages_for (set_system_prompt r p) (websiteInit url (fetch url)))) := by
  constructor
  · simp [messages_for, set_system_prompt]
  · simp [summarize, h]

/-- Witness for C7 at a concrete successful fetch and prompt. -/
theorem set_system_prompt_spec_witness :
    (messages_for (set_system_prompt (mkReader "llama3.2") "my custom prompt")
        (websiteInit "u" (FetchOutcome.httpResponse 200 "OK" sectionEightDoc))).head? =
      some { role := "system", content := "my custom prompt" } :=
  (set_system_prompt_spec (mkReader "llama3.2") "my custom prompt"
      (fun _ _ => ChatOutcome.ok "a summary")
      (fun _ => FetchOutcome.httpResponse 200 "OK" sectionEightDoc) "u" (by decide)).1

/-- C8: `title` and `text` are always populated strings: on any scrape
failure both are set to the descriptive fallback strings, and on
success the title is the stripped document title (through the
`.string` access) or `"No title found"` when the document has no title
element. -/
theorem page_fields_spec (url : String) (f : FetchOutcome) :
    (∀ msg q, scrape_website (initialPage url) f = Except.error (msg, q) →
      (websiteInit url f).title = "Error loading website" ∧
      (websiteInit url f).text = "Failed to load website content: " ++ msg) ∧
    (∀ status reason doc, f = FetchOutcome.httpResponse status reason doc →
      ∀ q, scrape_website (initialPage url) f = Except.ok q →
        websiteInit url f = q ∧
        (match findTag "title" doc with
         | none => q.title = "No title found"
         | some cs => ∃ s, singleChildString cs = some s ∧ q.title = strip s)) := by
  constructor
  · intro msg q h
    simp [websiteInit, h, handle_scraping_error]
  · intro status reason doc hf q hok
    subst hf
    obtain ⟨hs, t, hT, rfl⟩ := scrape_ok_fields url status reason doc q hok
    refine ⟨by simp [websiteInit, hok], ?_⟩
    have hcase := extractTitle_ok doc t hT
    revert hcase
    cases hft : findTag "title" doc with
    | none => simp [hft]
    | some cs =>
      simp only [hft]
      rintro ⟨s, hcs, rfl⟩
      exact ⟨s, hcs, rfl⟩

/-- Witness for C8: the failure branch at a transport error and the
success branch at the section-8 document. -/
theorem page_fields_spec_witness :
    ((websiteInit "u" (FetchOutcome.transportError "boom")).title =
        "Error loading website" ∧
      (websiteInit "u" (FetchOutcome.transportError "boom")).text =
        "Failed to load website content: " ++ "boom") ∧
    (websiteInit "u" (FetchOutcome.httpResponse 200 "OK" sectionEightDoc) =
        { url := "u", title := "T",
          text := "This is a sufficiently long paragraph of content.",
          raw_content := renderF sectionEightDoc, status_code := some 200 } ∧
      (match findTag "title" sectionEightDoc with
       | none =>
         ({ url := "u", title := "T",
            text := "This is a sufficiently long paragraph of content.",
            raw_content := renderF sectionEightDoc,
            status_code := some 200 } : Website).title = "No title found"
       | some cs => ∃ s, singleChildString cs = some s ∧
         ({ url := "u", title := "T",
            text := "This is a sufficiently long paragraph of content.",
            raw_content := renderF sectionEightDoc,
            status_code := some 200 } : Website).title = strip s)) :=
  ⟨(page_fields_spec "u" (FetchOutcome.transportError "boom")).1 "boom" (initialPage "u") rfl,
   (page_fields_spec "u" (FetchOutcome.httpResponse 200 "OK" sectionEightDoc)).2
     200 "OK" sectionEightDoc rfl
     { url := "u", title := "T",
       text := "This is a sufficiently long paragraph of content.",
       raw_content := renderF sectionEightDoc, status_code := some 200 } rfl⟩

/-- C10 counterexample: a document whose real `<title>` text is
literally `"Error loading website"` scrapes successfully, so
`status_code` is `some 200` while `title` is `"Error loading
website"`, contradicting the claim's final implication. -/
theorem status_title_counterexample :
    (websiteInit "u" (FetchOutcome.httpResponse 200 "OK"
        (listToForest [helem "title" [htext "Error loading website"]]))).status_code =
      some 200 ∧
    (websiteInit "u" (FetchOutcome.httpResponse 200 "OK"
        (listToForest [helem "title" [htext "Error loading website"]]))).title =
      "Error loading website" := by
  exact ⟨by decide, by decide⟩

/-- C10 (amended): after construction, `status_code` is non-`None`
exactly when the whole scrape completed without an exception; whenever
any step raises — including a title-extraction failure after the
status was already recorded — the error handler resets `status_code`
to `None` (but the title may still read `"Error loading website"` on a
success whose document genuinely carries that title). -/
theorem status_code_iff_scrape_ok (url : String) (f : FetchOutcome) :
    ((websiteInit url f).status_code ≠ none ↔
      ∃ q, scrape_website (initialPage url) f = Except.ok q) ∧
    (∀ msg q, scrape_website (initialPage url) f = Except.error (msg, q) →
      (websiteInit url f).status_code = none) := by
  constructor
  · cases hsc : scrape_website (initialPage url) f with
    | ok q =>
      obtain ⟨status, hq⟩ := scrape_ok_status url f q hsc
      simp [websiteInit, hsc, hq]
    | error e =>
      obtain ⟨msg, p⟩ := e
      simp [websiteInit, hsc, handle_scraping_error]
  · intro msg q h
    simp [websiteInit, h, handle_scraping_error]

/-- Witness for C10: an exception during title extraction (a `<title>`
with no string) resets `status_code` after the status was recorded. -/
theorem status_code_iff_scrape_ok_witness :
    (websiteInit "u" (FetchOutcome.httpResponse 200 "OK"
        (listToForest [helem "title" []]))).status_code = none :=
  (status_code_iff_scrape_ok "u"
      (FetchOutcome.httpResponse 200 "OK" (listToForest [helem "title" []]))).2
    "\x27NoneType\x27 object has no attribute \x27strip\x27"
    { url := "u", title := "", text := "", raw_content := "<title></title>",
      status_code := some 200 }
    rfl

end WebReader
